import Mathlib

/-!
Shallow embedding of the `cabinetry` routing/dispatch subsystem and the
data-extraction part of `visualize.plot_model.data_MC`, together with
theorems checking the repository's specification against it.

The routing module `cabinetry/route.py` itself is not shipped under `src/`;
only its test suite `tests/test_route.py` is.  The definitions below are
therefore modelled from the specification's description of the module
(sections 3, 4 and 8 of `spec.md`), with deviations taken from the test
suite wherever the tests pin behavior that differs from the specification's
words (each such deviation is recorded in the corresponding doc comment).
`visualize/plot_model.py` is present in `src/` and is embedded directly.
-/

namespace Cabinetry

/-! ## Definitions -/

/-- Scans the body of a glob bracket expression: collects the member
characters until the closing bracket and returns them together with the
remainder of the pattern, or `none` when the bracket is unterminated.
A `]` that appears first in the body is an ordinary member (as in
Python's `fnmatch`, which the spec's shell-glob semantics refer to). -/
def splitClass : List Char → List Char → Option (List Char × List Char)
  | _, [] => none
  | acc, c :: rest =>
    if c = ']' && !acc.isEmpty then some (acc, rest)
    else splitClass (acc ++ [c]) rest

/-- Membership test for the body of a bracket expression, supporting
ranges written `a-z`; a trailing `-` is an ordinary member. -/
def memberOf : List Char → Char → Bool
  | [], _ => false
  | [x], c => x == c
  | x :: '-' :: y :: rest, c => (x ≤ c && c ≤ y) || memberOf rest c
  | x :: rest, c => x == c || memberOf rest c

/-- Parses a bracket expression body (after the opening `[`): handles the
leading `!` negation marker and delegates to `splitClass`.  Returns the
negation flag, the member characters, and the rest of the pattern. -/
def parseClass (ps : List Char) : Option (Bool × List Char × List Char) :=
  match ps with
  | '!' :: ps₁ => (splitClass [] ps₁).map (fun r => (true, r.1, r.2))
  | _ => (splitClass [] ps).map (fun r => (false, r.1, r.2))

/-- Fuel-indexed shell-glob matching of a full candidate string against a
pattern: `*` matches any run of characters, `?` any single character,
`[...]` a character class (with `!` negation), everything else matches
literally; the whole candidate must be consumed (full-string match, not
substring search).  An unterminated `[` is matched literally, as Python's
`fnmatch.translate` does.  The fuel only serves to make the recursion
structural (so that the kernel can evaluate it); `globMatchFuel_congr`
below shows that any fuel above the combined input length gives the same
answer, so `globMatch` is independent of this implementation detail. -/
def globMatchFuel : Nat → List Char → List Char → Bool
  | 0, _, _ => false
  | _ + 1, [], cs => cs.isEmpty
  | fuel + 1, p :: ps, cs =>
    if p = '*' then
      match cs with
      | [] => globMatchFuel fuel ps []
      | c :: cs₁ => globMatchFuel fuel ps (c :: cs₁) || globMatchFuel fuel (p :: ps) cs₁
    else if p = '?' then
      match cs with
      | [] => false
      | _ :: cs₁ => globMatchFuel fuel ps cs₁
    else if p = '[' then
      match cs with
      | [] => false
      | c :: cs₁ =>
        match parseClass ps with
        | some (neg, spec, rest) =>
          (memberOf spec c != neg) && globMatchFuel fuel rest cs₁
        | none => (p == c) && globMatchFuel fuel ps cs₁
    else
      match cs with
      | [] => false
      | c :: cs₁ => (p == c) && globMatchFuel fuel ps cs₁

/-- Shell-glob matching, with enough fuel for the recursion to never be
cut off. -/
def globMatch (ps cs : List Char) : Bool :=
  globMatchFuel (ps.length + cs.length + 1) ps cs

/-- Modelled from the spec: the pattern matcher of section 4.1,
`matches(pattern, candidate)` (`route.py` is absent from `src/`; the name
`matches` is a reserved word in Lean, hence `matchesPattern`): the literal
pattern `"*"` always matches; otherwise a case-sensitive full-string
shell-glob match is performed. -/
def matchesPattern (pattern candidate : String) : Bool :=
  if pattern == "*" then true
  else globMatch pattern.toList candidate.toList

/-- Modelled from the spec: one entry of a Registry (section 3's
**Specification**; `route.py` is absent from `src/`).  The four pattern
fields, the callback's identifying name, and the callback itself mirror
the keys `region`, `sample`, `systematic`, `template`, `name`, `func` of
the dict that `tests/test_route.py::test_Router__register_processor`
shows being stored. -/
structure Specification (α : Type) where
  region : String
  sample : String
  systematic : String
  template : String
  name : String
  func : α
deriving DecidableEq

/-- Modelled from the spec: the decorator factory
`Router._register_processor` of section 4.2 (`route.py` is absent from
`src/`).  The Python decorator mutates `processor_list` by appending one
dict and returns the callback unchanged; the mutation is modelled by
returning the new list alongside the returned callback.  A `none`
qualifier defaults the corresponding pattern to `"*"`; `funcName` stands
for the callback's `__name__`. -/
def registerProcessor (processorList : List (Specification α))
    (regionName sampleName systematicName template : Option String)
    (funcName : String) (func : α) : List (Specification α) × α :=
  let processor : Specification α :=
    { region := match regionName with | some n => n | none => "*",
      sample := match sampleName with | some n => n | none => "*",
      systematic := match systematicName with | some n => n | none => "*",
      template := match template with | some n => n | none => "*",
      name := funcName,
      func := func }
  (processorList ++ [processor], func)

/-- Modelled from the spec: the conjunction of the four pattern checks
that `find_match` (section 4.3) performs for one Specification against
the four concrete query strings. -/
def specMatchesAll (processor : Specification α)
    (regionName sampleName systematicName template : String) : Bool :=
  matchesPattern processor.region regionName &&
  matchesPattern processor.sample sampleName &&
  matchesPattern processor.systematic systematicName &&
  matchesPattern processor.template template

/-- Modelled from the spec: `find_match` of section 4.3 (`route.py` is
absent from `src/`).  Scans the registry in insertion order, collects
every matching Specification, returns the first match's callback (or
`none` when nothing matches) and, when more than one Specification
matched, emits the non-fatal diagnostic whose exact wording
`tests/test_route.py::test_Router__find_match` pins:
`found N matches, continuing with the first one (name)`.  Emitted log
records are returned as the second component; no exception is raised on
ambiguity and no callback is invoked. -/
def findMatch (processorList : List (Specification α))
    (regionName sampleName systematicName template : String) :
    Option α × List String :=
  match processorList.filter
      (fun p => specMatchesAll p regionName sampleName systematicName template) with
  | [] => (none, [])
  | m :: rest =>
    (some m.func,
      if rest.length + 1 > 1 then
        ["found " ++ toString (rest.length + 1) ++
          " matches, continuing with the first one (" ++ m.name ++ ")"]
      else [])

/-- Modelled from the spec: the `Router` of sections 3 and 4.4, holding
the template-builder registry and the optional wrapper applied to every
callback found by the wrapped lookup.  `tests/test_route.py::test_Router`
pins the initial state: empty registry, wrapper unset. -/
structure Router (α β : Type) where
  template_builders : List (Specification α) := []
  template_builder_wrapper : Option (α → β) := none

/-- Modelled from the spec: the wrapped lookup of section 4.4
(`Router._find_template_builder_match` in the tests; `route.py` is absent
from `src/`).  With no wrapper configured the call fails eagerly;
`tests/test_route.py::test_Router__find_template_builder_match` pins both
the eagerness (it raises even on an empty registry) and the exact message
`no template builder wrapper defined` (raised as a `ValueError`, which
the spec's error taxonomy calls `ConfigurationError`; raising is modelled
with `Except.error`).  Otherwise the call delegates to `findMatch` on the
router's own registry and applies the wrapper to a found callback, or
returns `none` without touching the wrapper when nothing matched. -/
def findTemplateBuilderMatch (router : Router α β)
    (regionName sampleName systematicName template : String) :
    Except String (Option β) :=
  match router.template_builder_wrapper with
  | none => .error "no template builder wrapper defined"
  | some wrapper =>
    match (findMatch router.template_builders
        regionName sampleName systematicName template).1 with
    | some func => .ok (some (wrapper func))
    | none => .ok none

/-- Modelled from the spec: a Region entry of the configuration
(section 6), a mapping with a string-valued `Name`. -/
structure Region where
  name : String
deriving DecidableEq

/-- Modelled from the spec: a Sample entry of the configuration
(section 6), a mapping with a string-valued `Name`. -/
structure Sample where
  name : String
deriving DecidableEq

/-- Modelled from the spec: the optional `Samples` value of a Systematic
(section 6): either a single sample name or a sequence of names. -/
inductive SamplesField where
  | single (name : String)
  | several (names : List String)
deriving DecidableEq

/-- Modelled from the spec: a Systematic entry of the configuration
(section 6): a `Name`, a `Type` and an optional `Samples` restriction.
`sysType` is an `Option` so that the injected nominal pseudo-systematic
`{"Name": "Nominal"}`, which carries no `Type` key, is representable. -/
structure Systematic where
  name : String
  sysType : Option String
  samples : Option SamplesField
deriving DecidableEq

/-- Modelled from the spec: the declarative configuration (section 6),
three ordered collections. -/
structure Config where
  regions : List Region
  samples : List Sample
  systematics : List Systematic
deriving DecidableEq

/-- The nominal pseudo-systematic `{"Name": "Nominal"}` enumerated once
per (region, sample) pair. -/
def nominalSystematic : Systematic :=
  { name := "Nominal", sysType := none, samples := none }

/-- Modelled from the spec: the applicability check of section 4.5 step 1
— a Systematic applies to a Sample unless it declares a `Samples`
restriction that excludes the sample's name.  A plain string restriction
is the one-element case, as in
`tests/test_route.py::test_apply_to_all_templates` where
`"Samples": "sample"` makes the systematic apply to the sample named
`sample`. -/
def sampleAffectedByModifier (sample : Sample) (systematic : Systematic) : Bool :=
  match systematic.samples with
  | none => true
  | some (.single n) => sample.name == n
  | some (.several ns) => ns.contains sample.name

/-- Template directions implied by a Systematic's `Type`.  Deviation from
the spec's section 4.5 step 1, forced by
`tests/test_route.py::test_apply_to_all_templates`: the spec says Type
`"Normalization"` yields the directions `Up` and `Down`, but the test's
configuration contains an unrestricted `Normalization` systematic and
asserts that the enumeration consists of exactly the nominal call and the
`Up`/`Down` calls of the `NormPlusShape` systematic — so a
`Normalization` systematic yields no template directions at all, while
every other (non-nominal) `Type` yields `Up` and `Down`. -/
def templatesForSystematic (systematic : Systematic) : List String :=
  if systematic.sysType == some "Normalization" then []
  else ["Up", "Down"]

/-- One callback selection and invocation of section 4.5 step 3: when an
override-resolution function is supplied it is consulted with the four
names, and a returned callback replaces the default for this tuple;
otherwise the default callback runs.  The invoked callback receives the
full region/sample/systematic structures plus the direction string; its
result stands in for the side effect the Python callback performs. -/
def applyTemplate {ρ : Type _} (defaultFunc : Region → Sample → Systematic → String → ρ)
    (matchFunc : Option (String → String → String → String →
      Option (Region → Sample → Systematic → String → ρ)))
    (region : Region) (sample : Sample) (systematic : Systematic)
    (template : String) : ρ :=
  let funcOverride := match matchFunc with
    | none => none
    | some mf => mf region.name sample.name systematic.name template
  match funcOverride with
  | some f => f region sample systematic template
  | none => defaultFunc region sample systematic template

/-- Modelled from the spec: `apply_to_all_templates` of section 4.5
(`route.py` is absent from `src/`), in the spec's explicitly sanctioned
result-collecting variant: the list of callback results in invocation
order stands in for the sequence of side-effecting invocations.  For
every Region, then every Sample (both in configuration order): first the
single nominal tuple `(region, sample, {"Name": "Nominal"}, "Nominal")`,
then, for every applicable Systematic in configuration order, one tuple
per template direction.  Direction derivation follows
`templatesForSystematic`, whose deviation from the spec's words is pinned
by the test suite. -/
def applyToAllTemplates {ρ : Type _} (config : Config)
    (defaultFunc : Region → Sample → Systematic → String → ρ)
    (matchFunc : Option (String → String → String → String →
      Option (Region → Sample → Systematic → String → ρ))) : List ρ :=
  config.regions.foldl (fun acc region =>
    config.samples.foldl (fun acc sample =>
      config.systematics.foldl (fun acc systematic =>
        if sampleAffectedByModifier sample systematic then
          (templatesForSystematic systematic).foldl (fun acc template =>
            acc ++ [applyTemplate defaultFunc matchFunc region sample systematic template])
            acc
        else acc)
        (acc ++ [applyTemplate defaultFunc matchFunc region sample nominalSystematic "Nominal"]))
      acc)
    []

/-- The region `{"Name": "test_region"}` of the test configuration. -/
def regionTest : Region := { name := "test_region" }

/-- The sample `{"Name": "sample"}` of the test configuration. -/
def sampleTest : Sample := { name := "sample" }

/-- The systematic `{"Name": "norm", "Type": "Normalization"}` of the test
configuration. -/
def normSystematic : Systematic :=
  { name := "norm", sysType := some "Normalization", samples := none }

/-- The systematic
`{"Name": "var", "Type": "NormPlusShape", "Samples": "sample"}` of the
test configuration: restricted to the sample that is present. -/
def varSystematic : Systematic :=
  { name := "var", sysType := some "NormPlusShape",
    samples := some (.single "sample") }

/-- The example configuration of
`tests/test_route.py::test_apply_to_all_templates`. -/
def exampleConfig : Config :=
  { regions := [regionTest], samples := [sampleTest],
    systematics := [normSystematic, varSystematic] }

/-- A default callback that records its four arguments, standing in for
the mock whose `call_args_list` the test inspects. -/
def recordCall (region : Region) (sample : Sample) (systematic : Systematic)
    (template : String) : Region × Sample × Systematic × String :=
  (region, sample, systematic, template)

/-- One entry of `histogram_dict_list` as `data_MC` reads it
(`src/src/cabinetry/visualize/plot_model.py`, lines 48-55): the keys
`isData`, `label`, `yields` and `stdev`.  Per-bin values are lists over
an arbitrary numeric carrier `ν`, so that no floating-point semantics
need to be fixed. -/
structure SampleHistogram (ν : Type) where
  isData : Bool
  label : String
  yields : List ν
  stdev : List ν
deriving DecidableEq

/-- The local variables that the extraction loop of `data_MC` has filled
when the loop finishes; `none` models a Python local that was never
assigned. -/
structure DataMCInputs (ν : Type) where
  data_histogram_yields : Option (List ν)
  data_histogram_stdev : Option (List ν)
  data_label : Option String
  mc_histograms_yields : List (List ν)
  mc_labels : List String
deriving DecidableEq

/-- The extraction loop of `data_MC`
(`src/src/cabinetry/visualize/plot_model.py`, lines 46-55): for the entry
marked `isData` it stores the entry's yields, computes
`data_histogram_stdev = np.sqrt(data_histogram_yields)` — the elementwise
square root of the yields, abstracted as `sqrtFn` — and stores the label;
every other entry's yields and label are appended to the MC lists.  The
resulting `data_histogram_stdev` is exactly the `yerr` that the data
error bars are drawn with (lines 119-125 and 151). -/
def data_MC_step {ν : Type} (sqrtFn : ν → ν) (acc : DataMCInputs ν)
    (h : SampleHistogram ν) : DataMCInputs ν :=
  if h.isData then
    { acc with
      data_histogram_yields := some h.yields,
      data_histogram_stdev := some (h.yields.map sqrtFn),
      data_label := some h.label }
  else
    { acc with
      mc_histograms_yields := acc.mc_histograms_yields ++ [h.yields],
      mc_labels := acc.mc_labels ++ [h.label] }

/-- The whole extraction loop of `data_MC`: fold `data_MC_step` over
`histogram_dict_list`, starting from unassigned data locals and empty MC
lists. -/
def data_MC_inputs {ν : Type} (sqrtFn : ν → ν)
    (histogram_dict_list : List (SampleHistogram ν)) : DataMCInputs ν :=
  histogram_dict_list.foldl (data_MC_step sqrtFn)
    { data_histogram_yields := none, data_histogram_stdev := none,
      data_label := none, mc_histograms_yields := [], mc_labels := [] }

/-- A `NormPlusShape` systematic restricted to a sample other than the one
present in the test configuration (the scenario described by claim C1). -/
def varSystematicOther : Systematic :=
  { name := "var", sysType := some "NormPlusShape",
    samples := some (.single "other") }

/-- The configuration described by claim C1: one region, one sample, an
unrestricted `Normalization` systematic and a `NormPlusShape` systematic
restricted to a sample other than the one present. -/
def claimC1Config : Config :=
  { regions := [regionTest], samples := [sampleTest],
    systematics := [normSystematic, varSystematicOther] }

/-- An empty router with no wrapper configured, as built by `Router()` in
`tests/test_route.py::test_Router__find_template_builder_match`. -/
def emptyRouter : Router Nat Nat :=
  { template_builders := [], template_builder_wrapper := none }

/-- The Specification that
`tests/test_route.py::test_Router__find_match` registers for the example
template builder, with an opaque numeric stand-in for the callback. -/
def exampleSpecification : Specification Nat :=
  { region := "r?g", sample := "sig*", systematic := "*", template := "Up",
    name := "example_template_builder", func := 7 }

/-- The configuration used to refute claim C5: one region, one sample,
and the unrestricted `Normalization` systematic alone. -/
def claimC5Config : Config :=
  { regions := [regionTest], samples := [sampleTest],
    systematics := [normSystematic] }

/-- The Specification for `other_processor` in
`tests/test_route.py::test_Router__find_match`, with an opaque numeric
stand-in for the callback. -/
def otherSpecification : Specification Nat :=
  { region := "abc", sample := "*", systematic := "*", template := "*",
    name := "other_processor", func := 3 }

/-- The router of
`tests/test_route.py::test_Router__find_template_builder_match` after a
wrapper is configured and the example Specification is registered, with
numeric stand-ins: callback `7`, wrapper `Nat.succ`. -/
def wrappedRouter : Router Nat Nat :=
  { template_builders := [exampleSpecification],
    template_builder_wrapper := some Nat.succ }

/-! ## Theorems -/

theorem splitClass_length {acc l spec rest} (h : splitClass acc l = some (spec, rest)) :
    rest.length < l.length := by
  induction l generalizing acc with
  | nil => simp [splitClass] at h
  | cons c cs ih =>
    rw [splitClass] at h
    split at h
    · simp only [Option.some.injEq, Prod.mk.injEq] at h
      obtain ⟨-, rfl⟩ := h
      simp
    · exact Nat.lt_succ_of_lt (ih h)

theorem parseClass_length {ps neg spec rest} (h : parseClass ps = some (neg, spec, rest)) :
    rest.length < ps.length := by
  unfold parseClass at h
  split at h
  · rcases Option.map_eq_some'.mp h with ⟨⟨a, b⟩, hsc, hval⟩
    cases hval
    exact Nat.lt_succ_of_lt (splitClass_length hsc)
  · rcases Option.map_eq_some'.mp h with ⟨⟨a, b⟩, hsc, hval⟩
    cases hval
    exact splitClass_length hsc

theorem globMatchFuel_congr (fuel fuel₂ : Nat) (ps cs : List Char)
    (h : ps.length + cs.length < fuel) (h₂ : ps.length + cs.length < fuel₂) :
    globMatchFuel fuel ps cs = globMatchFuel fuel₂ ps cs := by
  induction fuel generalizing fuel₂ ps cs with
  | zero => omega
  | succ fuel ih =>
    match fuel₂, h₂ with
    | fuel₂ + 1, h₂ =>
    match ps with
    | [] => rfl
    | p :: ps =>
      simp only [globMatchFuel]
      simp only [List.length_cons] at h h₂
      by_cases hs : p = '*'
      · subst hs
        simp only [reduceIte]
        match cs with
        | [] => exact ih fuel₂ ps [] (by omega) (by omega)
        | c :: cs₁ =>
          exact congrArg₂ (· || ·)
            (ih fuel₂ ps (c :: cs₁) (by simp at h ⊢; omega) (by simp at h₂ ⊢; omega))
            (ih fuel₂ ('*' :: ps) cs₁ (by simp at h ⊢; omega) (by simp at h₂ ⊢; omega))
      · rw [if_neg hs, if_neg hs]
        by_cases hq : p = '?'
        · subst hq
          simp only [reduceIte]
          match cs with
          | [] => rfl
          | c :: cs₁ =>
            exact ih fuel₂ ps cs₁ (by simp at h ⊢; omega) (by simp at h₂ ⊢; omega)
        · rw [if_neg hq, if_neg hq]
          by_cases hb : p = '['
          · subst hb
            simp only [reduceIte]
            match cs with
            | [] => rfl
            | c :: cs₁ =>
              cases hp : parseClass ps with
              | some r =>
                obtain ⟨neg, spec, rest⟩ := r
                have hlen := parseClass_length hp
                exact congrArg (memberOf spec c != neg && ·)
                  (ih fuel₂ rest cs₁ (by simp at h ⊢; omega) (by simp at h₂ ⊢; omega))
              | none =>
                exact congrArg ('[' == c && ·)
                  (ih fuel₂ ps cs₁ (by simp at h ⊢; omega) (by simp at h₂ ⊢; omega))
          · rw [if_neg hb, if_neg hb]
            match cs with
            | [] => rfl
            | c :: cs₁ =>
              exact congrArg (p == c && ·)
                (ih fuel₂ ps cs₁ (by simp at h ⊢; omega) (by simp at h₂ ⊢; omega))

example : matchesPattern "r?g" "reg" = true := by decide
example : matchesPattern "sig*" "signal" = true := by decide
example : matchesPattern "abc" "reg" = false := by decide
example : matchesPattern "[ab]c" "bc" = true := by decide
example : matchesPattern "[!ab]c" "bc" = false := by decide
example : matchesPattern "a[x" "a[x" = true := by decide
example : matchesPattern "*" "anything" = true := by decide

theorem foldl_append_eq {β ρ : Type _} (g : List ρ → β → List ρ) (f : β → List ρ)
    (hg : ∀ acc b, g acc b = acc ++ f b) :
    ∀ (l : List β) (acc : List ρ), l.foldl g acc = acc ++ l.flatMap f := by
  intro l
  induction l with
  | nil => intro acc; simp
  | cons b bs ih =>
    intro acc
    simp only [List.foldl_cons, List.flatMap_cons, hg]
    rw [ih, List.append_assoc]

theorem flatMap_singleton_map {β ρ : Type _} (l : List β) (f : β → ρ) :
    l.flatMap (fun b => [f b]) = l.map f := by
  induction l with
  | nil => rfl
  | cons b bs ih => simp [ih]

/-- Declarative characterization of the enumerator: the result is the
concatenation, over regions then samples in configuration order, of the
nominal invocation followed by the per-systematic direction invocations
in declared order. -/
theorem applyToAllTemplates_eq {ρ : Type _} (config : Config)
    (defaultFunc : Region → Sample → Systematic → String → ρ)
    (matchFunc : Option (String → String → String → String →
      Option (Region → Sample → Systematic → String → ρ))) :
    applyToAllTemplates config defaultFunc matchFunc =
      config.regions.flatMap (fun region =>
        config.samples.flatMap (fun sample =>
          applyTemplate defaultFunc matchFunc region sample nominalSystematic "Nominal" ::
          config.systematics.flatMap (fun systematic =>
            if sampleAffectedByModifier sample systematic then
              (templatesForSystematic systematic).map
                (applyTemplate defaultFunc matchFunc region sample systematic)
            else []))) := by
  have hinner : ∀ (region : Region) (sample : Sample) (acc : List ρ),
      config.systematics.foldl (fun acc systematic =>
          if sampleAffectedByModifier sample systematic then
            (templatesForSystematic systematic).foldl (fun acc template =>
              acc ++ [applyTemplate defaultFunc matchFunc region sample systematic template])
              acc
          else acc) acc
        = acc ++ config.systematics.flatMap (fun systematic =>
            if sampleAffectedByModifier sample systematic then
              (templatesForSystematic systematic).map
                (applyTemplate defaultFunc matchFunc region sample systematic)
            else []) := by
    intro region sample acc
    refine foldl_append_eq _ _ ?_ config.systematics acc
    intro acc₃ systematic
    cases ha : sampleAffectedByModifier sample systematic with
    | true =>
      simp only [reduceIte]
      refine Eq.trans (foldl_append_eq _
        (fun template =>
          [applyTemplate defaultFunc matchFunc region sample systematic template])
        (fun _ _ => rfl) (templatesForSystematic systematic) acc₃) ?_
      rw [flatMap_singleton_map]
    | false => simp
  unfold applyToAllTemplates
  refine Eq.trans (foldl_append_eq _ _ ?_ config.regions []) (List.nil_append _)
  intro acc region
  refine foldl_append_eq _ _ ?_ config.samples acc
  intro acc₂ sample
  rw [hinner]
  simp

example :
    applyToAllTemplates exampleConfig recordCall none =
      [(regionTest, sampleTest, nominalSystematic, "Nominal"),
       (regionTest, sampleTest, varSystematic, "Up"),
       (regionTest, sampleTest, varSystematic, "Down")] := by decide

/-- C1, counterexample: on the configuration the claim describes, the
default callback is invoked exactly once (the nominal call), not 3 times —
a `Normalization` systematic contributes no template directions, and the
restricted `NormPlusShape` systematic is skipped, so neither produces
`Up`/`Down` calls. -/
theorem c1_counterexample :
    applyToAllTemplates claimC1Config recordCall none =
      [(regionTest, sampleTest, nominalSystematic, "Nominal")] ∧
    (applyToAllTemplates claimC1Config recordCall none).length ≠ 3 :=
  ⟨by decide, by decide⟩

/-- C1 (amended): on the configuration of
`tests/test_route.py::test_apply_to_all_templates` — one region, one
sample, an unrestricted `Normalization` systematic and a `NormPlusShape`
systematic whose `Samples` restriction names the sample present —
`apply_to_all_templates` with no `match_func` invokes the default
callback exactly 3 times, in order: `(region, sample,
{"Name": "Nominal"}, "Nominal")`, then the `NormPlusShape` systematic
with `"Up"`, then with `"Down"`; a systematic of Type `"Normalization"`
produces no template directions at all. -/
theorem c1_enumeration :
    applyToAllTemplates exampleConfig recordCall none =
      [(regionTest, sampleTest, nominalSystematic, "Nominal"),
       (regionTest, sampleTest, varSystematic, "Up"),
       (regionTest, sampleTest, varSystematic, "Down")] ∧
    ∀ systematic : Systematic, systematic.sysType = some "Normalization" →
      templatesForSystematic systematic = [] := by
  refine ⟨by decide, ?_⟩
  intro systematic hty
  simp [templatesForSystematic, hty]

/-- C1, witness for the amended theorem at the `norm` systematic of the
test configuration. -/
theorem c1_enumeration_witness :
    templatesForSystematic normSystematic = [] :=
  c1_enumeration.2 normSystematic rfl

/-- C2: with no wrapper configured, the wrapped lookup fails with the
error naming the missing template-builder wrapper instead of returning a
value; with any wrapper configured, the same call succeeds. -/
theorem c2_wrapper_precondition {α β : Type} (router : Router α β)
    (regionName sampleName systematicName template : String) :
    (router.template_builder_wrapper = none →
      findTemplateBuilderMatch router regionName sampleName systematicName template =
        .error "no template builder wrapper defined") ∧
    (∀ w : α → β, ∃ result : Option β,
      findTemplateBuilderMatch { router with template_builder_wrapper := some w }
        regionName sampleName systematicName template = .ok result) := by
  constructor
  · intro h
    unfold findTemplateBuilderMatch
    rw [h]
  · intro w
    cases hm : (findMatch router.template_builders regionName sampleName
        systematicName template).1 with
    | none =>
      refine ⟨none, ?_⟩
      unfold findTemplateBuilderMatch
      simp only []
      rw [hm]
    | some f =>
      refine ⟨some (w f), ?_⟩
      unfold findTemplateBuilderMatch
      simp only []
      rw [hm]

/-- C2, witness: the empty router raises; configuring the identity
wrapper makes the same call succeed. -/
theorem c2_wrapper_precondition_witness :
    (findTemplateBuilderMatch emptyRouter "" "" "" "" =
      .error "no template builder wrapper defined") ∧
    (∃ result : Option Nat,
      findTemplateBuilderMatch { emptyRouter with template_builder_wrapper := some id }
        "" "" "" "" = .ok result) :=
  ⟨(c2_wrapper_precondition emptyRouter "" "" "" "").1 rfl,
    (c2_wrapper_precondition emptyRouter "" "" "" "").2 id⟩

theorem find?_eq_head?_filter {α : Type _} (p : α → Bool) (l : List α) :
    l.find? p = (l.filter p).head? := by
  induction l with
  | nil => rfl
  | cons a as ih =>
    cases ha : p a with
    | true =>
      rw [List.find?_cons_of_pos _ ha, List.filter_cons_of_pos ha]
      rfl
    | false =>
      rw [List.find?_cons_of_neg _ (by simp [ha]), List.filter_cons_of_neg (by simp [ha])]
      exact ih

/-- C3: whenever more than one Specification matches the four query
arguments, `find_match` returns the callback of the first matching
Specification in insertion order (`List.find?` order), raises nothing,
and emits the non-fatal diagnostic reporting the number of matches and
the name of the chosen callback. -/
theorem c3_first_match_precedence {α : Type} (processorList : List (Specification α))
    (regionName sampleName systematicName template : String)
    (h : 2 ≤ (processorList.filter (fun p =>
      specMatchesAll p regionName sampleName systematicName template)).length) :
    (findMatch processorList regionName sampleName systematicName template).1 =
      (processorList.find? (fun p =>
        specMatchesAll p regionName sampleName systematicName template)).map
        Specification.func ∧
    (findMatch processorList regionName sampleName systematicName template).2 =
      ["found " ++
        toString (processorList.filter (fun p =>
          specMatchesAll p regionName sampleName systematicName template)).length ++
        " matches, continuing with the first one (" ++
        ((processorList.find? (fun p =>
          specMatchesAll p regionName sampleName systematicName template)).map
          Specification.name).getD "" ++ ")"] := by
  have hfm := find?_eq_head?_filter
    (fun p => specMatchesAll p regionName sampleName systematicName template)
    processorList
  unfold findMatch
  cases hf : processorList.filter
      (fun p => specMatchesAll p regionName sampleName systematicName template) with
  | nil =>
    rw [hf] at h
    simp at h
  | cons m rest =>
    rw [hf] at h hfm
    rw [hfm]
    have hlen : rest.length + 1 > 1 := by
      simp only [List.length_cons] at h
      omega
    simp [hlen]

set_option maxRecDepth 4000 in
/-- C3, witness: a registry holding the same matching Specification twice
(as in the test) returns the first one's callback and logs exactly
`found 2 matches, continuing with the first one (example_template_builder)`. -/
theorem c3_first_match_precedence_witness :
    (findMatch [exampleSpecification, exampleSpecification]
      "reg" "signal" "sys" "Up").1 = some 7 ∧
    (findMatch [exampleSpecification, exampleSpecification]
      "reg" "signal" "sys" "Up").2 =
      ["found 2 matches, continuing with the first one (example_template_builder)"] := by
  have h := c3_first_match_precedence [exampleSpecification, exampleSpecification]
    "reg" "signal" "sys" "Up" (by decide)
  exact ⟨h.1.trans (by decide), h.2.trans (by decide)⟩

theorem filter_flatMap {α β : Type _} (l : List α) (f : α → List β) (p : β → Bool) :
    (l.flatMap f).filter p = l.flatMap (fun a => (f a).filter p) := by
  induction l with
  | nil => rfl
  | cons a as ih => simp [List.filter_append, ih]

/-- C4: with no `match_func`, the invocations of the default callback are
exactly: regions in configuration order, then samples in configuration
order, and for each (region, sample) pair the nominal tuple first,
followed by the applicable systematics' directions in declared order.
Moreover the `"Nominal"`-direction invocations are exactly one per
(region, sample) pair, in configuration order, carrying the
`{"Name": "Nominal"}` systematic — independently of the systematics
list, which does not appear in that characterization at all. -/
theorem c4_enumeration_order {ρ : Type} (config : Config)
    (defaultFunc : Region → Sample → Systematic → String → ρ) :
    (applyToAllTemplates config defaultFunc none =
      config.regions.flatMap (fun region =>
        config.samples.flatMap (fun sample =>
          defaultFunc region sample nominalSystematic "Nominal" ::
          config.systematics.flatMap (fun systematic =>
            if sampleAffectedByModifier sample systematic then
              (templatesForSystematic systematic).map
                (defaultFunc region sample systematic)
            else [])))) ∧
    (applyToAllTemplates config recordCall none).filter
        (fun q => q.2.2.2 == "Nominal") =
      config.regions.flatMap (fun region =>
        config.samples.map (fun sample =>
          (region, sample, nominalSystematic, "Nominal"))) := by
  constructor
  · rw [applyToAllTemplates_eq]
    rfl
  · rw [applyToAllTemplates_eq, filter_flatMap]
    apply congrArg (List.flatMap config.regions)
    funext region
    rw [filter_flatMap]
    have hsample : ∀ sample : Sample,
        ((applyTemplate recordCall none region sample nominalSystematic "Nominal" ::
          config.systematics.flatMap (fun systematic =>
            if sampleAffectedByModifier sample systematic then
              (templatesForSystematic systematic).map
                (applyTemplate recordCall none region sample systematic)
            else [])).filter (fun q => q.2.2.2 == "Nominal")) =
          [(region, sample, nominalSystematic, "Nominal")] := by
      intro sample
      rw [List.filter_cons_of_pos (by rfl)]
      have hsys : (config.systematics.flatMap (fun systematic =>
          if sampleAffectedByModifier sample systematic then
            (templatesForSystematic systematic).map
              (applyTemplate recordCall none region sample systematic)
          else [])).filter (fun q => q.2.2.2 == "Nominal") = [] := by
        rw [filter_flatMap]
        have hsys₁ : ∀ systematic : Systematic,
            ((if sampleAffectedByModifier sample systematic then
              (templatesForSystematic systematic).map
                (applyTemplate recordCall none region sample systematic)
            else []).filter (fun q => q.2.2.2 == "Nominal")) = [] := by
          intro systematic
          cases sampleAffectedByModifier sample systematic with
          | false => rfl
          | true =>
            simp only [reduceIte]
            unfold templatesForSystematic
            cases systematic.sysType == some "Normalization" with
            | true => rfl
            | false => rfl
        simp only [hsys₁]
        induction config.systematics with
        | nil => rfl
        | cons y ys ih => simp [ih]
      rw [hsys]
      rfl
    simp only [hsample]
    exact flatMap_singleton_map config.samples
      (fun sample => (region, sample, nominalSystematic, "Nominal"))

/-- C5, counterexample: the `norm` systematic declares no `Samples`
restriction (so the claim's criterion says it is applied), yet it
contributes no tuples at all — the enumeration consists of the nominal
call only, because `Normalization` systematics need no templates. -/
theorem c5_counterexample :
    normSystematic.samples = none ∧
    sampleAffectedByModifier sampleTest normSystematic = true ∧
    applyToAllTemplates claimC5Config recordCall none =
      [(regionTest, sampleTest, nominalSystematic, "Nominal")] :=
  ⟨rfl, rfl, by decide⟩

/-- C5 (amended): a systematic enumerated by `apply_to_all_templates`
contributes tuples for a sample if and only if its Type is not
`"Normalization"` AND it either declares no `Samples` restriction or
declares one including the current sample's name; in particular a
systematic whose `Samples` restriction excludes the current sample
contributes no tuples at all for that sample. -/
theorem c5_applicability (region : Region) (sample : Sample)
    (systematic : Systematic) :
    ((∃ template, (region, sample, systematic, template) ∈
        applyToAllTemplates
          { regions := [region], samples := [sample], systematics := [systematic] }
          recordCall none) ↔
      (systematic.sysType ≠ some "Normalization" ∧
        sampleAffectedByModifier sample systematic = true)) ∧
    (sampleAffectedByModifier sample systematic = false →
      applyToAllTemplates
          { regions := [region], samples := [sample], systematics := [systematic] }
          recordCall none =
        [(region, sample, nominalSystematic, "Nominal")]) := by
  have hout : applyToAllTemplates
      { regions := [region], samples := [sample], systematics := [systematic] }
      recordCall none =
      (region, sample, nominalSystematic, "Nominal") ::
        (if sampleAffectedByModifier sample systematic then
          (templatesForSystematic systematic).map (recordCall region sample systematic)
        else []) := by
    rw [applyToAllTemplates_eq]
    simp only [List.flatMap_cons, List.flatMap_nil, List.append_nil]
    rfl
  constructor
  · constructor
    · rintro ⟨template, hmem⟩
      rw [hout] at hmem
      rcases List.mem_cons.mp hmem with hhead | htail
      · have hsys : systematic = nominalSystematic := by
          have := congrArg (fun q => q.2.2.1) hhead
          simpa using this
        subst hsys
        exact ⟨by simp [nominalSystematic], rfl⟩
      · cases ha : sampleAffectedByModifier sample systematic with
        | false => rw [ha] at htail; simp at htail
        | true =>
          rw [ha] at htail
          simp only [if_true] at htail
          refine ⟨?_, rfl⟩
          intro hty
          rw [show templatesForSystematic systematic = [] from by
            simp [templatesForSystematic, hty]] at htail
          simp at htail
    · rintro ⟨hty, haff⟩
      rw [hout, haff]
      refine ⟨"Up", List.mem_cons_of_mem _ ?_⟩
      simp only [if_true]
      have htpl : templatesForSystematic systematic = ["Up", "Down"] := by
        unfold templatesForSystematic
        rw [if_neg]
        simp [hty]
      rw [htpl]
      exact List.mem_cons_self _ _
  · intro haff
    rw [hout, haff]
    rfl

/-- C5, witness for the amended theorem: the `NormPlusShape` systematic
restricted to the absent sample `other` contributes no tuples for the
present sample, and the unrestricted `norm` systematic fails the
tuple-contribution criterion because its Type is `"Normalization"`. -/
theorem c5_applicability_witness :
    applyToAllTemplates
        { regions := [regionTest], samples := [sampleTest],
          systematics := [varSystematicOther] } recordCall none =
      [(regionTest, sampleTest, nominalSystematic, "Nominal")] ∧
    ¬ ∃ template, (regionTest, sampleTest, normSystematic, template) ∈
      applyToAllTemplates
        { regions := [regionTest], samples := [sampleTest],
          systematics := [normSystematic] } recordCall none :=
  ⟨(c5_applicability regionTest sampleTest varSystematicOther).2 (by decide),
    fun hexists =>
      ((c5_applicability regionTest sampleTest normSystematic).1.mp hexists).1 rfl⟩

/-- C6: the registration decorator appends exactly one Specification to
the registry, whose four patterns are the given arguments with `"*"`
substituted for each omitted (`none`) argument, whose `name` is the
callback's identifying name, and whose `func` is the callback itself; the
decorator hands the original callback back unmodified, and registering
with all qualifiers omitted yields every pattern equal to `"*"`. -/
theorem c6_register_defaults {α : Type} (processorList : List (Specification α))
    (regionName sampleName systematicName template : Option String)
    (funcName : String) (func : α) :
    (registerProcessor processorList regionName sampleName systematicName template
        funcName func).1 =
      processorList ++
        [{ region := regionName.getD "*", sample := sampleName.getD "*",
           systematic := systematicName.getD "*", template := template.getD "*",
           name := funcName, func := func }] ∧
    (registerProcessor processorList regionName sampleName systematicName template
        funcName func).2 = func ∧
    (registerProcessor processorList none none none none funcName func).1 =
      processorList ++
        [{ region := "*", sample := "*", systematic := "*", template := "*",
           name := funcName, func := func }] := by
  refine ⟨?_, rfl, rfl⟩
  cases regionName <;> cases sampleName <;> cases systematicName <;>
    cases template <;> rfl

/-- C7: the pattern matcher: the literal pattern `"*"` matches every
candidate; otherwise matching is a case-sensitive full-string shell glob
— `?` matches exactly one character (so `r?g` matches `reg` but not
`rg`), `*` any run of characters, `[...]` a character class, a
non-matching literal pattern fails, and a pattern matching a substring
only (`abc` inside `xabcy`) or differing in case (`ABC` against `abc`)
fails. -/
theorem c7_glob_matching :
    (∀ candidate : String, matchesPattern "*" candidate = true) ∧
    matchesPattern "r?g" "reg" = true ∧
    matchesPattern "sig*" "signal" = true ∧
    matchesPattern "abc" "reg" = false ∧
    matchesPattern "abc" "xabcy" = false ∧
    matchesPattern "ABC" "abc" = false ∧
    matchesPattern "[ab]c" "ac" = true ∧
    matchesPattern "r?g" "rg" = false := by
  refine ⟨fun candidate => rfl, ?_, ?_, ?_, ?_, ?_, ?_, ?_⟩ <;> decide

/-- C8: when no Specification in the registry matches all four query
arguments, `find_match` returns `None` (no error, no diagnostic); since
the lookup only ever returns a callback and never applies one, no
callback is invoked. -/
theorem c8_no_match_none {α : Type} (processorList : List (Specification α))
    (regionName sampleName systematicName template : String)
    (h : ∀ p ∈ processorList,
      specMatchesAll p regionName sampleName systematicName template = false) :
    findMatch processorList regionName sampleName systematicName template =
      (none, []) := by
  unfold findMatch
  have hf : processorList.filter
      (fun p => specMatchesAll p regionName sampleName systematicName template) = [] := by
    rw [List.filter_eq_nil_iff]
    intro p hp
    simp [h p hp]
  rw [hf]

/-- C8, witness at the test's registry and the test's unmatched query
(`reg`, `background`, `sys`, `Up`): neither Specification matches
(`abc` fails on the region, `sig*` fails on the sample). -/
theorem c8_no_match_none_witness :
    findMatch [otherSpecification, exampleSpecification]
      "reg" "background" "sys" "Up" = (none, []) :=
  c8_no_match_none _ "reg" "background" "sys" "Up" (by decide)

/-- C9: with a wrapper configured, the wrapped lookup delegates to
`find_match` over the router's own registry; a found callback is returned
wrapped by the configured wrapper (`Option.map`), and when nothing is
found the result is `None` — the wrapper is not consulted, as the result
is literally `Option.map w` of the lookup result, which ignores `w` on
`none`.  Any naming that the wrapper preserves (as `functools.wraps` does
in the tests) is therefore preserved by the wrapped lookup. -/
theorem c9_wrapped_lookup {α β : Type} (router : Router α β) (w : α → β)
    (regionName sampleName systematicName template : String)
    (hw : router.template_builder_wrapper = some w) :
    (findTemplateBuilderMatch router regionName sampleName systematicName template =
      .ok ((findMatch router.template_builders regionName sampleName
        systematicName template).1.map w)) ∧
    ∀ (aname : α → String) (bname : β → String),
      (∀ f, bname (w f) = aname f) →
      ∀ m, (findMatch router.template_builders regionName sampleName
          systematicName template).1 = some m →
        ∃ wrapped,
          findTemplateBuilderMatch router regionName sampleName systematicName
              template = .ok (some wrapped) ∧
          bname wrapped = aname m := by
  have hmain : findTemplateBuilderMatch router regionName sampleName systematicName
      template =
      .ok ((findMatch router.template_builders regionName sampleName
        systematicName template).1.map w) := by
    unfold findTemplateBuilderMatch
    rw [hw]
    cases hm : (findMatch router.template_builders regionName sampleName
        systematicName template).1 with
    | none => rfl
    | some f => rfl
  refine ⟨hmain, ?_⟩
  intro aname bname hpres m hm
  refine ⟨w m, ?_, hpres m⟩
  rw [hmain, hm]
  rfl

/-- C9, witness: on the matching query the wrapped lookup returns the
registered callback with the wrapper applied (`7` wrapped to `8`). -/
theorem c9_wrapped_lookup_witness :
    findTemplateBuilderMatch wrappedRouter "reg" "signal" "sys" "Up" =
      .ok (some 8) :=
  ((c9_wrapped_lookup wrappedRouter Nat.succ "reg" "signal" "sys" "Up" rfl).1).trans
    (congrArg Except.ok (by decide))

/-- C10: the uncertainty that `data_MC` attaches to the entry marked
`isData` is the elementwise square root of that entry's yields (Poisson
errors), and the `stdev` supplied with any entry of
`histogram_dict_list` is ignored: replacing every entry's `stdev` by
anything whatsoever leaves all extracted inputs — data yields, data
uncertainty, data label, MC yields and MC labels — unchanged. -/
theorem c10_data_poisson_errors {ν : Type} (sqrtFn : ν → ν)
    (histogram_dict_list : List (SampleHistogram ν)) :
    ((data_MC_inputs sqrtFn histogram_dict_list).data_histogram_stdev =
      ((data_MC_inputs sqrtFn histogram_dict_list).data_histogram_yields).map
        (List.map sqrtFn)) ∧
    ∀ newStdev : SampleHistogram ν → List ν,
      data_MC_inputs sqrtFn
          (histogram_dict_list.map (fun h => { h with stdev := newStdev h })) =
        data_MC_inputs sqrtFn histogram_dict_list := by
  constructor
  · have key : ∀ (l : List (SampleHistogram ν)) (acc : DataMCInputs ν),
        acc.data_histogram_stdev = acc.data_histogram_yields.map (List.map sqrtFn) →
        (l.foldl (data_MC_step sqrtFn) acc).data_histogram_stdev =
          (l.foldl (data_MC_step sqrtFn) acc).data_histogram_yields.map
            (List.map sqrtFn) := by
      intro l
      induction l with
      | nil => intro acc hacc; exact hacc
      | cons a as ih =>
        intro acc hacc
        simp only [List.foldl_cons]
        apply ih
        unfold data_MC_step
        cases a.isData with
        | true => simp
        | false => simpa using hacc
    exact key histogram_dict_list _ rfl
  · intro newStdev
    unfold data_MC_inputs
    have key : ∀ (l : List (SampleHistogram ν)) (acc : DataMCInputs ν),
        (l.map (fun h => { h with stdev := newStdev h })).foldl
            (data_MC_step sqrtFn) acc =
          l.foldl (data_MC_step sqrtFn) acc := by
      intro l
      induction l with
      | nil => intro acc; rfl
      | cons a as ih =>
        intro acc
        simp only [List.map_cons, List.foldl_cons]
        rw [ih]
        rfl
    exact key histogram_dict_list _

end Cabinetry
